import Mathlib

/-!
Shallow embedding of the bills-payment service core
(`src/modules/payments`): the `Payment` entity and its status state
machine, the simulated payment processor, the SQLite-backed repository
(modelled as a list of rows), the Redis-backed idempotency/lock store
(modelled as an association list of keys and a list of held lock keys),
and the four use-case orchestrators.

Modelling conventions:
* Python `Decimal` amounts are modelled by `ℚ`.  `Decimal` arithmetic in
  the core is limited to comparisons, which `ℚ` models exactly; the
  decimal-to-string serialisation used by the repository is lossless, so
  a stored amount column is modelled by the exact rational value.
* Python `float(...)` conversion (used by the response DTOs) is modelled
  by `pyFloat`, an IEEE-754 binary64 round-to-nearest model for values in
  the normal range.
* Timestamps (`datetime.utcnow()` / `isoformat()`) are modelled as
  natural-number ticks supplied by the caller; ISO-8601 strings are
  order-isomorphic to the instants they encode.
* `uuid4()` is modelled as a caller-supplied fresh identifier.
* Python `str.strip` / `str.upper` / `len` are modelled by `pyStrip`,
  `pyUpper` and `String.length` (identical on the ASCII inputs the
  service handles).
* `await` points cannot interleave in the sequential embedding; each
  use-case execution is one atomic function from world to world, with a
  trace of repository/idempotency-store effects.
-/

/-- Whitespace-trim of both ends, modelling Python `str.strip()`. -/
def pyStrip (s : String) : String :=
  ⟨((s.data.dropWhile Char.isWhitespace).reverse.dropWhile Char.isWhitespace).reverse⟩

/-- Character-wise upper-casing, modelling Python `str.upper()`. -/
def pyUpper (s : String) : String :=
  ⟨s.data.map Char.toUpper⟩

/-- Fuel-driven floor base-2 logarithm of a natural number. -/
def log2fuel : ℕ → ℕ → ℕ
  | 0, _ => 0
  | fuel + 1, n => if n ≤ 1 then 0 else log2fuel fuel (n / 2) + 1

/-- Floor base-2 logarithm (`log2fuel` with enough fuel). -/
def natLog2 (n : ℕ) : ℕ := log2fuel n n

/-- Floor of a nonnegative rational (integer division of numerator by
denominator; used only on nonnegative arguments). -/
def ratFloorNonneg (q : ℚ) : ℤ := q.num / (q.den : ℤ)

/-- Power of two as a rational, for an integer (possibly negative) exponent. -/
def pow2q (k : ℤ) : ℚ :=
  if 0 ≤ k then ((2 ^ k.toNat : ℕ) : ℚ) else 1 / ((2 ^ (-k).toNat : ℕ) : ℚ)

/-- Floor base-2 logarithm of a positive rational. -/
def ratExp2 (q : ℚ) : ℤ :=
  let k : ℤ := (natLog2 q.num.natAbs : ℤ) - (natLog2 q.den : ℤ)
  if q < pow2q k then k - 1 else k

/-- Round a nonnegative rational to the nearest integer, ties to even
(the IEEE-754 default rounding). -/
def roundHalfEven (q : ℚ) : ℤ :=
  if q - (ratFloorNonneg q : ℚ) < 1 / 2 then ratFloorNonneg q
  else if 1 / 2 < q - (ratFloorNonneg q : ℚ) then ratFloorNonneg q + 1
  else if ratFloorNonneg q % 2 = 0 then ratFloorNonneg q
  else ratFloorNonneg q + 1

/-- Conversion of a positive rational to the nearest IEEE-754 binary64
value (normal range), as an exact rational. -/
def pyFloatPos (q : ℚ) : ℚ :=
  ((roundHalfEven (q * pow2q (52 - ratExp2 q)) : ℤ) : ℚ) /
    pow2q (52 - ratExp2 q)

/-- Model of Python `float(Decimal(...))`: IEEE-754 binary64
round-to-nearest-even for values in the normal range. -/
def pyFloat (q : ℚ) : ℚ :=
  if q = 0 then 0
  else if q < 0 then -(pyFloatPos (-q))
  else pyFloatPos q

/-- Payment lifecycle states (`payment_status.py`). -/
inductive PaymentStatus
  | PENDING
  | SUCCESS
  | FAILED
  | EXHAUSTED
deriving DecidableEq, Repr

/-- String value of a status, as in the Python `str`-valued enum. -/
def PaymentStatus.value : PaymentStatus → String
  | .PENDING => "PENDING"
  | .SUCCESS => "SUCCESS"
  | .FAILED => "FAILED"
  | .EXHAUSTED => "EXHAUSTED"

/-- Parse a status string, modelling the `PaymentStatus(...)` enum call
(which raises on an unknown string, hence `Option`). -/
def PaymentStatus.ofString (s : String) : Option PaymentStatus :=
  if s = "PENDING" then some .PENDING
  else if s = "SUCCESS" then some .SUCCESS
  else if s = "FAILED" then some .FAILED
  else if s = "EXHAUSTED" then some .EXHAUSTED
  else none

/-- Final states admit no further transition (`PaymentStatus.is_final`). -/
def PaymentStatus.isFinal : PaymentStatus → Bool
  | .SUCCESS => true
  | .EXHAUSTED => true
  | _ => false

/-- Only `FAILED` payments may be retried (`PaymentStatus.can_retry`). -/
def PaymentStatus.canRetry : PaymentStatus → Bool
  | .FAILED => true
  | _ => false

/-- Domain error taxonomy (`errors.py`), with the metadata each error carries. -/
inductive DomainError
  | validationError (message : String) (field : String)
  | notFoundError (payment_id : String)
  | cannotRetryError (payment_id : String) (current_status : String)
  | maxRetriesExceededError (payment_id : String) (max_retries : ℕ)
deriving DecidableEq, Repr

/-- The `Payment` entity (`payment.py`). -/
structure Payment where
  payment_id : String
  reference : String
  amount : ℚ
  currency : String
  status : PaymentStatus
  retries : ℕ
  created_at : ℕ
  updated_at : ℕ
deriving DecidableEq, Repr

/-- Maximum retry attempts (`Payment.MAX_RETRIES`). -/
def Payment.MAX_RETRIES : ℕ := 3

/-- Validating factory `Payment.create`: rejects an empty/whitespace
reference, a non-positive amount, and a currency whose length is not 3;
otherwise builds a PENDING payment with the trimmed reference, the
upper-cased currency and zero retries.  The fresh id (`uuid4()`) and the
current instant are supplied by the caller. -/
def Payment.create (reference : String) (amount : ℚ) (currency : String)
    (newId : String) (now : ℕ) : Except DomainError Payment :=
  if reference = "" ∨ pyStrip reference = "" then
    .error (.validationError "Reference cannot be empty" "reference")
  else if amount ≤ 0 then
    .error (.validationError "Amount must be greater than zero" "amount")
  else if currency.length ≠ 3 then
    .error (.validationError "Currency must be exactly 3 characters" "currency")
  else
    .ok { payment_id := newId
          reference := pyStrip reference
          amount := amount
          currency := pyUpper currency
          status := .PENDING
          retries := 0
          created_at := now
          updated_at := now }

/-- Retry eligibility (`Payment.can_retry`). -/
def Payment.canRetry (p : Payment) : Bool :=
  p.status.canRetry && decide (p.retries < Payment.MAX_RETRIES)

/-- Transition method `mark_as_success` (unguarded in the source). -/
def Payment.mark_as_success (p : Payment) (now : ℕ) : Payment :=
  { p with status := .SUCCESS, updated_at := now }

/-- Transition method `mark_as_failed` (unguarded in the source). -/
def Payment.mark_as_failed (p : Payment) (now : ℕ) : Payment :=
  { p with status := .FAILED, updated_at := now }

/-- Transition method `mark_as_exhausted` (unguarded in the source). -/
def Payment.mark_as_exhausted (p : Payment) (now : ℕ) : Payment :=
  { p with status := .EXHAUSTED, updated_at := now }

/-- Guarded counter increment `Payment.increment_retries`. -/
def Payment.increment_retries (p : Payment) (now : ℕ) : Except DomainError Payment :=
  if ¬ p.status.canRetry then
    .error (.cannotRetryError p.payment_id p.status.value)
  else if p.retries ≥ Payment.MAX_RETRIES then
    .error (.maxRetriesExceededError p.payment_id Payment.MAX_RETRIES)
  else
    .ok { p with retries := p.retries + 1, updated_at := now }

/-- State transition after a retry attempt (`Payment.process_retry_result`). -/
def Payment.process_retry_result (p : Payment) (success : Bool) (now : ℕ) : Payment :=
  if success then p.mark_as_success now
  else if p.retries ≥ Payment.MAX_RETRIES then p.mark_as_exhausted now
  else p.mark_as_failed now

/-- Result record returned by the processing port (`ProcessingResult`). -/
structure ProcessingResult where
  success : Bool
  message : String
deriving DecidableEq, Repr

/-- Success threshold of the simulated processor (`AMOUNT_THRESHOLD`). -/
def SimulatedPaymentProcessor.AMOUNT_THRESHOLD : ℚ := 1000

/-- Deterministic initial processing (`SimulatedPaymentProcessor.process`):
success exactly when the amount is within the threshold. -/
def SimulatedPaymentProcessor.process (amount : ℚ) : ProcessingResult :=
  if amount ≤ SimulatedPaymentProcessor.AMOUNT_THRESHOLD then
    { success := true, message := "Payment processed successfully" }
  else
    { success := false, message := "Payment failed: amount exceeds threshold" }

/-- Probabilistic retry processing (`SimulatedPaymentProcessor.process_retry`):
the random draw is injected as the boolean outcome. -/
def SimulatedPaymentProcessor.process_retry (outcome : Bool) : ProcessingResult :=
  if outcome then
    { success := true, message := "Payment retry processed successfully" }
  else
    { success := false, message := "Payment retry failed: simulated temporary failure" }

/-- Stored payment row (`payments` table): `amount` is persisted as
`str(Decimal)` which is lossless, so it is modelled by the exact
rational; `status` is persisted as its string value. -/
structure PaymentRow where
  payment_id : String
  reference : String
  amount : ℚ
  currency : String
  status : String
  retries : ℕ
  created_at : ℕ
  updated_at : ℕ
deriving DecidableEq, Repr

/-- Serialisation of an entity into a row (`SQLitePaymentRepository.save`
column list). -/
def entityToRow (p : Payment) : PaymentRow :=
  { payment_id := p.payment_id
    reference := p.reference
    amount := p.amount
    currency := p.currency
    status := p.status.value
    retries := p.retries
    created_at := p.created_at
    updated_at := p.updated_at }

/-- Reconstitution of an entity from a row
(`SQLitePaymentRepository._row_to_entity`); parsing the status string can
fail, hence `Option`. -/
def rowToEntity (r : PaymentRow) : Option Payment :=
  (PaymentStatus.ofString r.status).map fun st =>
    { payment_id := r.payment_id
      reference := r.reference
      amount := r.amount
      currency := r.currency
      status := st
      retries := r.retries
      created_at := r.created_at
      updated_at := r.updated_at }

/-- `INSERT` of a new row (`SQLitePaymentRepository.save`). -/
def dbSave (db : List PaymentRow) (p : Payment) : List PaymentRow :=
  db ++ [entityToRow p]

/-- `SELECT * FROM payments WHERE payment_id = ?` followed by row
reconstitution (`SQLitePaymentRepository.find_by_id`). -/
def dbFindById (db : List PaymentRow) (payment_id : String) : Option Payment :=
  (db.find? fun r => r.payment_id = payment_id).bind rowToEntity

/-- `UPDATE` of the mutable columns keyed by id
(`SQLitePaymentRepository.update`); `created_at` is not rewritten. -/
def dbUpdate (db : List PaymentRow) (p : Payment) : List PaymentRow :=
  db.map fun r =>
    if r.payment_id = p.payment_id then
      { r with reference := p.reference
               amount := p.amount
               currency := p.currency
               status := p.status.value
               retries := p.retries
               updated_at := p.updated_at }
    else r

/-- Python truthiness of the optional status filter (`if status:`):
`None` and the empty string are both falsy. -/
def statusTruthy : Option String → Bool
  | none => false
  | some s => !(s == "")

/-- Rows matching a status filter under Python truthiness. -/
def rowMatches (status : Option String) (r : PaymentRow) : Bool :=
  if statusTruthy status then r.status == (status.getD "") else true

/-- `ORDER BY created_at DESC` over the stored rows. -/
def sortByCreatedDesc (db : List PaymentRow) : List PaymentRow :=
  List.insertionSort (fun a b => b.created_at ≤ a.created_at) db

/-- `SELECT ... [WHERE status = ?] ORDER BY created_at DESC LIMIT ? OFFSET ?`
(`SQLitePaymentRepository.find_all`). -/
def dbFindAll (db : List PaymentRow) (status : Option String)
    (limit offset : ℕ) : List PaymentRow :=
  (((sortByCreatedDesc db).filter (rowMatches status)).drop offset).take limit

/-- `SELECT COUNT(*) [WHERE status = ?]` (`SQLitePaymentRepository.count`). -/
def dbCount (db : List PaymentRow) (status : Option String) : ℕ :=
  (db.filter (rowMatches status)).length

/-- Response DTO (`PaymentResponse`): the amount is produced by
`float(payment.amount)`, modelled by `pyFloat`; the timestamps are the
ISO-8601 serialisations, modelled by the instants themselves. -/
structure PaymentResponse where
  payment_id : String
  reference : String
  amount : ℚ
  currency : String
  status : String
  retries : ℕ
  created_at : ℕ
  updated_at : ℕ
deriving DecidableEq, Repr

/-- DTO construction from an entity (`PaymentResponse.from_entity`). -/
def PaymentResponse.from_entity (p : Payment) : PaymentResponse :=
  { payment_id := p.payment_id
    reference := p.reference
    amount := pyFloat p.amount
    currency := p.currency
    status := p.status.value
    retries := p.retries
    created_at := p.created_at
    updated_at := p.updated_at }

/-- Request DTO for `CreatePayment`. -/
structure CreatePaymentRequest where
  reference : String
  amount : ℚ
  currency : String
  idempotency_key : String
deriving DecidableEq, Repr

/-- Request DTO for `ListPayments`. -/
structure ListPaymentsRequest where
  status : Option String
  limit : ℕ
  offset : ℕ
deriving DecidableEq, Repr

/-- Response DTO for `ListPayments`. -/
structure ListPaymentsResponse where
  payments : List PaymentResponse
  total : ℕ
  limit : ℕ
  offset : ℕ
deriving DecidableEq, Repr

/-- Observable effects on the repository and the idempotency store, one
constructor per port operation with a side effect. -/
inductive Ev
  | save (payment_id : String)
  | update (payment_id : String)
  | idemSave (key : String)
  | lockAcquired (key : String)
  | lockFailed (key : String)
  | lockReleased (key : String)
deriving DecidableEq, Repr

/-- Repository-write events (`save`/`update`) of a trace. -/
def Ev.isRepoWrite : Ev → Bool
  | .save _ => true
  | .update _ => true
  | _ => false

/-- Idempotency-mapping publication events of a trace. -/
def Ev.isIdemSave : Ev → Bool
  | .idemSave _ => true
  | _ => false

/-- Save events of a trace. -/
def Ev.isSave : Ev → Bool
  | .save _ => true
  | _ => false

/-- Mutable state visible to the use cases: the payments table, the
idempotency key-value store (lookup takes the most recent binding, so
`save` is modelled by consing, matching Redis `SET` overwrite), and the
set of currently held lock keys. -/
structure World where
  db : List PaymentRow
  idem : List (String × String)
  locks : List String
deriving DecidableEq, Repr

/-- Step 1 of `CreatePaymentUseCase.execute`: look up the idempotency
key and, when the mapping exists and the referenced payment is still in
the repository, return that payment; a dangling mapping falls through. -/
def lookupExisting (w : World) (key : String) : Option Payment :=
  match List.lookup key w.idem with
  | some pid => dbFindById w.db pid
  | none => none

/-- Steps 3-7 of `CreatePaymentUseCase.execute` (the `try` body) together
with the `finally` clause: validate and build the entity, save it as
PENDING, process, mark success or failure, update, publish the
idempotency mapping; on every exit release the lock exactly when this
execution acquired it. -/
def createBody (req : CreatePaymentRequest) (newId : String) (now : ℕ)
    (w : World) (lockAcquired : Bool) :
    Except DomainError (PaymentResponse × Bool) × World × List Ev :=
  let inner :=
    match Payment.create req.reference req.amount req.currency newId now with
    | .error e => (Except.error e, w, ([] : List Ev))
    | .ok payment =>
      let result := SimulatedPaymentProcessor.process payment.amount
      let payment2 :=
        if result.success then payment.mark_as_success now
        else payment.mark_as_failed now
      (Except.ok (PaymentResponse.from_entity payment2, true),
        { w with db := dbUpdate (dbSave w.db payment) payment2
                 idem := (req.idempotency_key, payment2.payment_id) :: w.idem },
        [Ev.save payment.payment_id, Ev.update payment2.payment_id,
         Ev.idemSave req.idempotency_key])
  if lockAcquired then
    (inner.1, { inner.2.1 with locks := inner.2.1.locks.erase req.idempotency_key },
      inner.2.2 ++ [Ev.lockReleased req.idempotency_key])
  else inner

/-- The `CreatePaymentUseCase.execute` orchestration: idempotency
pre-check, non-blocking lock acquisition, re-check of the mapping after a
failed acquisition, then the creation body with guaranteed lock release.
The fresh id and the instant are supplied by the caller. -/
def CreatePaymentUseCase.execute (req : CreatePaymentRequest) (newId : String)
    (now : ℕ) (w : World) :
    Except DomainError (PaymentResponse × Bool) × World × List Ev :=
  match lookupExisting w req.idempotency_key with
  | some p => (Except.ok (PaymentResponse.from_entity p, false), w, [])
  | none =>
    if req.idempotency_key ∈ w.locks then
      match lookupExisting w req.idempotency_key with
      | some p =>
        (Except.ok (PaymentResponse.from_entity p, false), w,
          [Ev.lockFailed req.idempotency_key])
      | none =>
        let r := createBody req newId now w false
        (r.1, r.2.1, Ev.lockFailed req.idempotency_key :: r.2.2)
    else
      let r := createBody req newId now
        { w with locks := req.idempotency_key :: w.locks } true
      (r.1, r.2.1, Ev.lockAcquired req.idempotency_key :: r.2.2)

/-- The `RetryPaymentUseCase.execute` orchestration: load the payment,
check eligibility raising the two distinct error kinds, increment the
counter, process the retry (outcome injected), apply the transition and
persist it.  Only the payments table is touched. -/
def RetryPaymentUseCase.execute (payment_id : String) (outcome : Bool)
    (now : ℕ) (db : List PaymentRow) :
    Except DomainError PaymentResponse × List PaymentRow × List Ev :=
  match dbFindById db payment_id with
  | none => (Except.error (.notFoundError payment_id), db, [])
  | some payment =>
    if ¬ payment.canRetry then
      if ¬ payment.status.canRetry then
        (Except.error (.cannotRetryError payment.payment_id payment.status.value),
          db, [])
      else
        (Except.error (.maxRetriesExceededError payment.payment_id Payment.MAX_RETRIES),
          db, [])
    else
      match payment.increment_retries now with
      | .error e => (Except.error e, db, [])
      | .ok p1 =>
        let result := SimulatedPaymentProcessor.process_retry outcome
        let p2 := p1.process_retry_result result.success now
        (Except.ok (PaymentResponse.from_entity p2), dbUpdate db p2,
          [Ev.update p2.payment_id])

/-- The four valid status strings in enum order
(`[s.value for s in PaymentStatus]`). -/
def validStatuses : List String := ["PENDING", "SUCCESS", "FAILED", "EXHAUSTED"]

/-- The `ListPaymentsUseCase.execute` orchestration: a truthy status
filter outside the four valid strings is rejected; otherwise the page of
rows and the pagination-independent total are returned. -/
def ListPaymentsUseCase.execute (req : ListPaymentsRequest)
    (db : List PaymentRow) : Except DomainError ListPaymentsResponse :=
  if statusTruthy req.status ∧ ¬ (validStatuses.contains (req.status.getD "")) then
    .error (.validationError
      ("Invalid status " ++ req.status.getD "" ++ ". Valid values: PENDING, SUCCESS, FAILED, EXHAUSTED")
      "status")
  else
    .ok { payments :=
            ((dbFindAll db req.status req.limit req.offset).filterMap rowToEntity).map
              PaymentResponse.from_entity
          total := dbCount db req.status
          limit := req.limit
          offset := req.offset }

/-! ### Helper lemmas -/

lemma PaymentStatus.canRetry_iff (s : PaymentStatus) :
    s.canRetry = true ↔ s = .FAILED := by
  cases s <;> simp [PaymentStatus.canRetry]

lemma PaymentStatus.isFinal_not_canRetry (s : PaymentStatus)
    (h : s.isFinal = true) : s.canRetry = false := by
  cases s <;> simp_all [PaymentStatus.isFinal, PaymentStatus.canRetry]

/-- C3: For every stored payment with status FAILED and retries r < 3,
RetryPayment increments the counter to r+1 and then transitions to
SUCCESS on a successful retry, to FAILED when the retry fails with
r+1 < 3, and to EXHAUSTED when the retry fails with r+1 = 3; the final
state is persisted through the repository's update. -/
theorem retry_failed_payment_transitions (pid : String) (b : Bool) (now : ℕ)
    (db : List PaymentRow) (p : Payment) (r : ℕ)
    (hfind : dbFindById db pid = some p)
    (hst : p.status = .FAILED) (hr : p.retries = r) (hlt : r < 3) :
    RetryPaymentUseCase.execute pid b now db =
      (Except.ok (PaymentResponse.from_entity
          { p with retries := r + 1,
                   status := if b then .SUCCESS
                             else if r + 1 = 3 then .EXHAUSTED else .FAILED,
                   updated_at := now }),
        dbUpdate db
          ({ p with retries := r + 1,
                    status := if b then .SUCCESS
                              else if r + 1 = 3 then .EXHAUSTED else .FAILED,
                    updated_at := now }),
        [Ev.update p.payment_id]) := by
  have hcr : p.canRetry = true := by
    simp [Payment.canRetry, hst, PaymentStatus.canRetry, hr, Payment.MAX_RETRIES, hlt]
  simp only [RetryPaymentUseCase.execute, hfind, hcr, Bool.not_eq_true,
    not_true, Bool.false_eq_true, if_false]
  have hinc : p.increment_retries now =
      Except.ok { p with retries := r + 1, updated_at := now } := by
    simp [Payment.increment_retries, hst, PaymentStatus.canRetry,
      Payment.MAX_RETRIES, hr, Nat.not_le.mpr hlt, hr]
  simp only [hinc]
  rcases b with _ | _
  · by_cases h3 : r + 1 = 3
    · simp [SimulatedPaymentProcessor.process_retry, Payment.process_retry_result,
        Payment.mark_as_exhausted, Payment.MAX_RETRIES, h3]
    · have : ¬ (r + 1 ≥ 3) := by omega
      simp [SimulatedPaymentProcessor.process_retry, Payment.process_retry_result,
        Payment.mark_as_failed, Payment.MAX_RETRIES, h3, this]
  · simp [SimulatedPaymentProcessor.process_retry, Payment.process_retry_result,
      Payment.mark_as_success]

/-- Witness for C3: a FAILED payment with 2 retries, failing retry,
ends EXHAUSTED with 3 retries and is persisted. -/
theorem retry_failed_payment_transitions_witness :
    RetryPaymentUseCase.execute "p1" false 7
      [⟨"p1", "ref", 1500, "USD", "FAILED", 2, 1, 1⟩] =
      (Except.ok (PaymentResponse.from_entity
          { payment_id := "p1", reference := "ref", amount := 1500,
            currency := "USD",
            status := if false then .SUCCESS
                      else if 2 + 1 = 3 then .EXHAUSTED else .FAILED,
            retries := 2 + 1, created_at := 1, updated_at := 7 }),
        dbUpdate [⟨"p1", "ref", 1500, "USD", "FAILED", 2, 1, 1⟩]
          ({ payment_id := "p1", reference := "ref", amount := 1500,
             currency := "USD",
             status := if false then .SUCCESS
                       else if 2 + 1 = 3 then .EXHAUSTED else .FAILED,
             retries := 2 + 1, created_at := 1, updated_at := 7 }),
        [Ev.update "p1"]) :=
  retry_failed_payment_transitions "p1" false 7
    [⟨"p1", "ref", 1500, "USD", "FAILED", 2, 1, 1⟩]
    ⟨"p1", "ref", 1500, "USD", .FAILED, 2, 1, 1⟩ 2
    (by decide) (by decide) (by decide) (by decide)

/-- C4: a payment that is not retry-eligible makes RetryPayment raise
exactly one of two distinct error kinds with no state change and no
repository write: CannotRetry (carrying the current status) when the
status is not FAILED, MaxRetriesExceeded (carrying the maximum 3) when
the status is FAILED with the counter already at 3; an unknown id raises
NotFound. -/
theorem retry_not_eligible_distinct_errors (pid : String) (b : Bool) (now : ℕ)
    (db : List PaymentRow) :
    (dbFindById db pid = none →
      RetryPaymentUseCase.execute pid b now db =
        (Except.error (.notFoundError pid), db, [])) ∧
    (∀ p : Payment, dbFindById db pid = some p → p.status ≠ .FAILED →
      RetryPaymentUseCase.execute pid b now db =
        (Except.error (.cannotRetryError p.payment_id p.status.value), db, [])) ∧
    (∀ p : Payment, dbFindById db pid = some p → p.status = .FAILED →
      p.retries = 3 →
      RetryPaymentUseCase.execute pid b now db =
        (Except.error (.maxRetriesExceededError p.payment_id Payment.MAX_RETRIES),
          db, [])) := by
  refine ⟨fun hnone => ?_, fun p hfind hst => ?_, fun p hfind hst hr => ?_⟩
  · simp [RetryPaymentUseCase.execute, hnone]
  · have hcr : p.status.canRetry = false := by
      cases hs : p.status <;> simp_all [PaymentStatus.canRetry]
    simp [RetryPaymentUseCase.execute, hfind, Payment.canRetry, hcr]
  · have hcr : p.status.canRetry = true := by simp [hst, PaymentStatus.canRetry]
    simp [RetryPaymentUseCase.execute, hfind, Payment.canRetry, hcr, hr,
      Payment.MAX_RETRIES]

/-- Witness for C4: a missing id, a SUCCESS payment and a FAILED payment
with 3 retries each produce their respective error with the table
untouched. -/
theorem retry_not_eligible_distinct_errors_witness :
    (RetryPaymentUseCase.execute "missing" true 5
        [⟨"ps", "ref", 500, "USD", "SUCCESS", 0, 1, 1⟩,
         ⟨"pf", "ref", 1500, "USD", "FAILED", 3, 2, 2⟩] =
      (Except.error (.notFoundError "missing"),
        [⟨"ps", "ref", 500, "USD", "SUCCESS", 0, 1, 1⟩,
         ⟨"pf", "ref", 1500, "USD", "FAILED", 3, 2, 2⟩], [])) ∧
    (RetryPaymentUseCase.execute "ps" true 5
        [⟨"ps", "ref", 500, "USD", "SUCCESS", 0, 1, 1⟩,
         ⟨"pf", "ref", 1500, "USD", "FAILED", 3, 2, 2⟩] =
      (Except.error (.cannotRetryError "ps" "SUCCESS"),
        [⟨"ps", "ref", 500, "USD", "SUCCESS", 0, 1, 1⟩,
         ⟨"pf", "ref", 1500, "USD", "FAILED", 3, 2, 2⟩], [])) ∧
    (RetryPaymentUseCase.execute "pf" true 5
        [⟨"ps", "ref", 500, "USD", "SUCCESS", 0, 1, 1⟩,
         ⟨"pf", "ref", 1500, "USD", "FAILED", 3, 2, 2⟩] =
      (Except.error (.maxRetriesExceededError "pf" Payment.MAX_RETRIES),
        [⟨"ps", "ref", 500, "USD", "SUCCESS", 0, 1, 1⟩,
         ⟨"pf", "ref", 1500, "USD", "FAILED", 3, 2, 2⟩], [])) :=
  ⟨(retry_not_eligible_distinct_errors "missing" true 5 _).1 (by decide),
   (retry_not_eligible_distinct_errors "ps" true 5 _).2.1
     ⟨"ps", "ref", 500, "USD", .SUCCESS, 0, 1, 1⟩ (by decide) (by decide),
   (retry_not_eligible_distinct_errors "pf" true 5 _).2.2
     ⟨"pf", "ref", 1500, "USD", .FAILED, 3, 2, 2⟩ (by decide) (by decide) (by decide)⟩

/-- Counterexample for C5: the claim asserts that the entity transition
methods leave a terminal payment unchanged, but `mark_as_failed` applied
to a SUCCESS payment mutates it (the methods are unguarded in the
source). -/
theorem terminal_payment_mutation_cex :
    Payment.mark_as_failed ⟨"p1", "ref", 500, "USD", .SUCCESS, 0, 1, 1⟩ 2 ≠
      ⟨"p1", "ref", 500, "USD", .SUCCESS, 0, 1, 1⟩ := by
  decide

/-- C5 as amended: for a payment in a terminal status, any retry attempt
fails with CannotRetry and mutates nothing: `increment_retries` raises
CannotRetry, and the RetryPayment use case raises CannotRetry leaving
the repository untouched with no write.  The unguarded `mark_as_*`
transition methods themselves are excluded from the amended claim: they
do mutate a terminal payment. -/
theorem terminal_payment_retry_rejected (p : Payment) (pid : String) (b : Bool)
    (now : ℕ) (db : List PaymentRow) (hfin : p.status.isFinal = true) :
    p.increment_retries now =
      Except.error (.cannotRetryError p.payment_id p.status.value) ∧
    (dbFindById db pid = some p →
      RetryPaymentUseCase.execute pid b now db =
        (Except.error (.cannotRetryError p.payment_id p.status.value), db, [])) := by
  have hcr : p.status.canRetry = false := PaymentStatus.isFinal_not_canRetry _ hfin
  constructor
  · simp [Payment.increment_retries, hcr]
  · intro hfind
    simp [RetryPaymentUseCase.execute, hfind, Payment.canRetry, hcr]

/-- Witness for C5: an EXHAUSTED payment is rejected with CannotRetry by
both the entity method and the use case, with the table untouched. -/
theorem terminal_payment_retry_rejected_witness :
    Payment.increment_retries ⟨"pe", "ref", 9, "USD", .EXHAUSTED, 3, 1, 1⟩ 4 =
      Except.error (.cannotRetryError "pe" "EXHAUSTED") ∧
    RetryPaymentUseCase.execute "pe" false 4
        [⟨"pe", "ref", 9, "USD", "EXHAUSTED", 3, 1, 1⟩] =
      (Except.error (.cannotRetryError "pe" "EXHAUSTED"),
        [⟨"pe", "ref", 9, "USD", "EXHAUSTED", 3, 1, 1⟩], []) := by
  have h := terminal_payment_retry_rejected
    ⟨"pe", "ref", 9, "USD", .EXHAUSTED, 3, 1, 1⟩ "pe" false 4
    [⟨"pe", "ref", 9, "USD", "EXHAUSTED", 3, 1, 1⟩] (by decide)
  exact ⟨h.1, h.2 (by decide)⟩

/-! ### Create-path helper lemmas -/

lemma pyStrip_empty : pyStrip "" = "" := rfl

lemma PaymentStatus.ofString_value (s : PaymentStatus) :
    PaymentStatus.ofString s.value = some s := by
  cases s <;> rfl

lemma rowToEntity_entityToRow (p : Payment) :
    rowToEntity (entityToRow p) = some p := by
  simp [rowToEntity, entityToRow, PaymentStatus.ofString_value]

/-- The PENDING entity built by `Payment.create` for a valid request. -/
def pendingPaymentOf (req : CreatePaymentRequest) (newId : String) (now : ℕ) :
    Payment :=
  ⟨newId, pyStrip req.reference, req.amount, pyUpper req.currency, .PENDING, 0, now, now⟩

/-- The entity after initial processing: SUCCESS within the threshold,
FAILED above it. -/
def processedPaymentOf (req : CreatePaymentRequest) (newId : String) (now : ℕ) :
    Payment :=
  ⟨newId, pyStrip req.reference, req.amount, pyUpper req.currency,
    if req.amount ≤ SimulatedPaymentProcessor.AMOUNT_THRESHOLD then .SUCCESS else .FAILED,
    0, now, now⟩

lemma payment_create_ok (reference : String) (amount : ℚ) (currency : String)
    (newId : String) (now : ℕ)
    (href : pyStrip reference ≠ "") (hamt : 0 < amount)
    (hcur : currency.length = 3) :
    Payment.create reference amount currency newId now =
      Except.ok ⟨newId, pyStrip reference, amount, pyUpper currency, .PENDING, 0, now, now⟩ := by
  have h1 : ¬ (reference = "" ∨ pyStrip reference = "") := by
    rintro (h | h)
    · exact href (h ▸ pyStrip_empty)
    · exact href h
  simp [Payment.create, h1, not_le.mpr hamt, hcur]

lemma payment_create_err (reference : String) (amount : ℚ) (currency : String)
    (newId : String) (now : ℕ)
    (h : pyStrip reference = "" ∨ amount ≤ 0 ∨ currency.length ≠ 3) :
    ∃ m f, Payment.create reference amount currency newId now =
      Except.error (.validationError m f) := by
  unfold Payment.create
  split_ifs with h1 h2 h3
  · exact ⟨_, _, rfl⟩
  · exact ⟨_, _, rfl⟩
  · exact ⟨_, _, rfl⟩
  · rcases h with h | h | h
    · exact absurd (Or.inr h) h1
    · exact absurd h h2
    · exact absurd h h3

lemma createBody_ok (req : CreatePaymentRequest) (newId : String) (now : ℕ)
    (w : World) (acq : Bool)
    (href : pyStrip req.reference ≠ "") (hamt : 0 < req.amount)
    (hcur : req.currency.length = 3) :
    createBody req newId now w acq =
      (Except.ok (PaymentResponse.from_entity (processedPaymentOf req newId now), true),
       { db := dbUpdate (dbSave w.db (pendingPaymentOf req newId now))
                 (processedPaymentOf req newId now),
         idem := (req.idempotency_key, newId) :: w.idem,
         locks := if acq then w.locks.erase req.idempotency_key else w.locks },
       [Ev.save newId, Ev.update newId, Ev.idemSave req.idempotency_key] ++
         (if acq then [Ev.lockReleased req.idempotency_key] else [])) := by
  unfold createBody
  rw [payment_create_ok req.reference req.amount req.currency newId now href hamt hcur]
  by_cases hA : req.amount ≤ SimulatedPaymentProcessor.AMOUNT_THRESHOLD <;>
    cases acq <;>
      simp [SimulatedPaymentProcessor.process, hA, Payment.mark_as_success,
        Payment.mark_as_failed, processedPaymentOf, pendingPaymentOf]

lemma createBody_err (req : CreatePaymentRequest) (newId : String) (now : ℕ)
    (w : World) (acq : Bool) (e : DomainError)
    (h : Payment.create req.reference req.amount req.currency newId now =
      Except.error e) :
    createBody req newId now w acq =
      (Except.error e,
       { w with locks := if acq then w.locks.erase req.idempotency_key else w.locks },
       if acq then [Ev.lockReleased req.idempotency_key] else []) := by
  unfold createBody
  rw [h]
  cases acq <;> simp

lemma lookupExisting_of_lookup_none (w : World) (key : String)
    (h : List.lookup key w.idem = none) : lookupExisting w key = none := by
  simp [lookupExisting, h]

/-- Dispatch of `CreatePaymentUseCase.execute` when the idempotency
pre-check falls through: the run goes to the creation body, with or
without the lock. -/
lemma createExecute_fresh (req : CreatePaymentRequest) (newId : String)
    (now : ℕ) (w : World)
    (hle : lookupExisting w req.idempotency_key = none) :
    CreatePaymentUseCase.execute req newId now w =
      (if req.idempotency_key ∈ w.locks then
        ((createBody req newId now w false).1,
         (createBody req newId now w false).2.1,
         Ev.lockFailed req.idempotency_key :: (createBody req newId now w false).2.2)
      else
        ((createBody req newId now
            { w with locks := req.idempotency_key :: w.locks } true).1,
         (createBody req newId now
            { w with locks := req.idempotency_key :: w.locks } true).2.1,
         Ev.lockAcquired req.idempotency_key ::
           (createBody req newId now
             { w with locks := req.idempotency_key :: w.locks } true).2.2)) := by
  unfold CreatePaymentUseCase.execute
  simp only [hle]

/-- C2: a CreatePayment request with a non-empty trimmed reference, a
positive amount and a 3-character currency, executed while its
idempotency key is not mapped, returns a freshly created payment with
zero retries, the trimmed reference, the upper-cased currency, and
status SUCCESS exactly when the amount is at most 1000, else FAILED. -/
theorem create_payment_valid_request_result (req : CreatePaymentRequest)
    (newId : String) (now : ℕ) (w : World)
    (hlook : List.lookup req.idempotency_key w.idem = none)
    (href : pyStrip req.reference ≠ "") (hamt : 0 < req.amount)
    (hcur : req.currency.length = 3) :
    ∃ (resp : PaymentResponse) (w1 : World) (tr : List Ev),
      CreatePaymentUseCase.execute req newId now w = (Except.ok (resp, true), w1, tr) ∧
      resp.retries = 0 ∧
      resp.reference = pyStrip req.reference ∧
      resp.currency = pyUpper req.currency ∧
      resp.status = (if req.amount ≤ 1000 then "SUCCESS" else "FAILED") := by
  have hle := lookupExisting_of_lookup_none w req.idempotency_key hlook
  have hresp :
      (PaymentResponse.from_entity (processedPaymentOf req newId now)).retries = 0 ∧
      (PaymentResponse.from_entity (processedPaymentOf req newId now)).reference =
        pyStrip req.reference ∧
      (PaymentResponse.from_entity (processedPaymentOf req newId now)).currency =
        pyUpper req.currency ∧
      (PaymentResponse.from_entity (processedPaymentOf req newId now)).status =
        (if req.amount ≤ 1000 then "SUCCESS" else "FAILED") := by
    refine ⟨rfl, rfl, rfl, ?_⟩
    by_cases hA : req.amount ≤ 1000 <;>
      simp [PaymentResponse.from_entity, processedPaymentOf,
        SimulatedPaymentProcessor.AMOUNT_THRESHOLD, hA, PaymentStatus.value]
  rw [createExecute_fresh req newId now w hle]
  by_cases hm : req.idempotency_key ∈ w.locks
  · rw [if_pos hm, createBody_ok req newId now w false href hamt hcur]
    exact ⟨_, _, _, rfl, hresp⟩
  · rw [if_neg hm, createBody_ok req newId now _ true href hamt hcur]
    exact ⟨_, _, _, rfl, hresp⟩

/-- Witness for C2: the spec scenario `amount=500, currency="mxn"` gives
currency `"MXN"`, status `SUCCESS`, retries `0`. -/
theorem create_payment_valid_request_result_witness :
    ∃ (resp : PaymentResponse) (w1 : World) (tr : List Ev),
      CreatePaymentUseCase.execute ⟨" ref1 ", 500, "mxn", "key1"⟩ "id1" 3 ⟨[], [], []⟩ =
        (Except.ok (resp, true), w1, tr) ∧
      resp.retries = 0 ∧
      resp.reference = pyStrip " ref1 " ∧
      resp.currency = pyUpper "mxn" ∧
      resp.status = (if (500 : ℚ) ≤ 1000 then "SUCCESS" else "FAILED") :=
  create_payment_valid_request_result ⟨" ref1 ", 500, "mxn", "key1"⟩ "id1" 3
    ⟨[], [], []⟩ (by decide) (by decide) (by decide) (by decide)

/-- C7: a CreatePayment request that fails validation (blank trimmed
reference, non-positive amount, or currency length other than 3),
executed while the idempotency pre-check falls through, raises
ValidationError, leaves the world exactly as it was (so no repository
write happened), and its trace contains no repository write and no
idempotency-mapping publication. -/
theorem create_invalid_request_no_writes (req : CreatePaymentRequest)
    (newId : String) (now : ℕ) (w : World)
    (hle : lookupExisting w req.idempotency_key = none)
    (hinv : pyStrip req.reference = "" ∨ req.amount ≤ 0 ∨ req.currency.length ≠ 3) :
    ∃ (m f : String) (tr : List Ev),
      CreatePaymentUseCase.execute req newId now w =
        (Except.error (.validationError m f), w, tr) ∧
      tr.filter Ev.isRepoWrite = [] ∧
      tr.filter Ev.isIdemSave = [] := by
  obtain ⟨m, f, herr⟩ :=
    payment_create_err req.reference req.amount req.currency newId now hinv
  rw [createExecute_fresh req newId now w hle]
  by_cases hm : req.idempotency_key ∈ w.locks
  · refine ⟨m, f, [Ev.lockFailed req.idempotency_key], ?_, rfl, rfl⟩
    rw [if_pos hm, createBody_err req newId now w false _ herr]
    simp
  · refine ⟨m, f,
      [Ev.lockAcquired req.idempotency_key, Ev.lockReleased req.idempotency_key],
      ?_, rfl, rfl⟩
    rw [if_neg hm, createBody_err req newId now _ true _ herr]
    simp
  
/-- Witness for C7: an all-whitespace reference is rejected with no
writes and an unchanged world. -/
theorem create_invalid_request_no_writes_witness :
    ∃ (m f : String) (tr : List Ev),
      CreatePaymentUseCase.execute ⟨"   ", 500, "usd", "key1"⟩ "id1" 3 ⟨[], [], []⟩ =
        (Except.error (.validationError m f), ⟨[], [], []⟩, tr) ∧
      tr.filter Ev.isRepoWrite = [] ∧
      tr.filter Ev.isIdemSave = [] :=
  create_invalid_request_no_writes ⟨"   ", 500, "usd", "key1"⟩ "id1" 3 ⟨[], [], []⟩
    (by decide) (by decide)

lemma createBody_effects (req : CreatePaymentRequest) (newId : String)
    (now : ℕ) (w : World) (acq : Bool) :
    (createBody req newId now w acq).2.1.locks =
      (if acq then w.locks.erase req.idempotency_key else w.locks) ∧
    (Ev.lockReleased req.idempotency_key ∈ (createBody req newId now w acq).2.2 ↔
      acq = true) ∧
    Ev.lockAcquired req.idempotency_key ∉ (createBody req newId now w acq).2.2 := by
  unfold createBody
  cases hc : Payment.create req.reference req.amount req.currency newId now <;>
    cases acq <;> simp

/-- C6: on every exit path of CreatePayment the lock table is left
exactly as found (an acquiring execution always releases, a
non-acquiring one never deletes), and the trace contains a lock release
precisely when it contains a successful lock acquisition. -/
theorem create_payment_lock_release_balanced (req : CreatePaymentRequest)
    (newId : String) (now : ℕ) (w : World) :
    (CreatePaymentUseCase.execute req newId now w).2.1.locks = w.locks ∧
    (Ev.lockReleased req.idempotency_key ∈
        (CreatePaymentUseCase.execute req newId now w).2.2 ↔
      Ev.lockAcquired req.idempotency_key ∈
        (CreatePaymentUseCase.execute req newId now w).2.2) := by
  unfold CreatePaymentUseCase.execute
  cases hl : lookupExisting w req.idempotency_key with
  | some p => simp
  | none =>
    by_cases hm : req.idempotency_key ∈ w.locks
    · rw [if_pos hm]
      obtain ⟨h1, h2, h3⟩ := createBody_effects req newId now w false
      simp only [List.mem_cons, h2]
      constructor
      · simpa using h1
      · simp [h3]
    · rw [if_neg hm]
      obtain ⟨h1, h2, h3⟩ :=
        createBody_effects req newId now
          { w with locks := req.idempotency_key :: w.locks } true
      constructor
      · simpa [List.erase_cons_head] using h1
      · simp [List.mem_cons, h2]

lemma createExecute_replay (req : CreatePaymentRequest) (newId : String)
    (now : ℕ) (w : World) (p : Payment)
    (hle : lookupExisting w req.idempotency_key = some p) :
    CreatePaymentUseCase.execute req newId now w =
      (Except.ok (PaymentResponse.from_entity p, false), w, []) := by
  unfold CreatePaymentUseCase.execute
  simp only [hle]

lemma lookup_cons_self (key v : String) (l : List (String × String)) :
    List.lookup key ((key, v) :: l) = some v := by
  simp [List.lookup]

lemma lookup_eraseKey_none (key : String) (l : List (String × String)) :
    List.lookup key (l.filter (fun kv => kv.1 != key)) = none := by
  induction l with
  | nil => rfl
  | cons kv rest ih =>
    by_cases h : kv.1 = key
    · simp [List.filter_cons, h, ih]
    · have hne : (key == kv.1) = false := by
        simp [beq_iff_eq]
        exact fun he => h he.symm
      simp [List.filter_cons, h, List.lookup_cons, hne, ih]
      exact ⟨fun he => h he.symm, fun a b _ hak hka => hak hka.symm⟩

lemma dbFindById_fresh_roundtrip (db : List PaymentRow) (pInit pFinal : Payment)
    (hid : pInit.payment_id = pFinal.payment_id)
    (hca : pInit.created_at = pFinal.created_at)
    (hfresh : ∀ r ∈ db, r.payment_id ≠ pFinal.payment_id) :
    dbFindById (dbUpdate (dbSave db pInit) pFinal) pFinal.payment_id = some pFinal := by
  unfold dbFindById dbUpdate dbSave
  induction db with
  | nil =>
    have hrow :
        (if (entityToRow pInit).payment_id = pFinal.payment_id then
          { entityToRow pInit with
              reference := pFinal.reference, amount := pFinal.amount,
              currency := pFinal.currency, status := pFinal.status.value,
              retries := pFinal.retries, updated_at := pFinal.updated_at }
        else entityToRow pInit) = entityToRow pFinal := by
      simp [entityToRow, hid, hca]
    simp only [List.nil_append, List.map_cons, List.map_nil, hrow]
    simp [List.find?, entityToRow, rowToEntity, PaymentStatus.ofString_value]
  | cons r rest ih =>
    have hr : r.payment_id ≠ pFinal.payment_id := hfresh r (by simp)
    have ih2 := ih (fun x hx => hfresh x (by simp [hx]))
    simp only [List.cons_append, List.map_cons]
    rw [List.find?_cons]
    have hpres :
        ((if r.payment_id = pFinal.payment_id then
          { r with reference := pFinal.reference, amount := pFinal.amount,
                   currency := pFinal.currency, status := pFinal.status.value,
                   retries := pFinal.retries, updated_at := pFinal.updated_at }
        else r).payment_id = pFinal.payment_id) = False := by
      simp [hr]
    simp only [hpres]
    simpa using ih2

lemma createBody_parts_idem_indep (req : CreatePaymentRequest) (newId : String)
    (now : ℕ) (w w' : World) (acq : Bool)
    (hdb : w.db = w'.db) (hlk : w.locks = w'.locks) :
    (createBody req newId now w acq).1 = (createBody req newId now w' acq).1 ∧
    (createBody req newId now w acq).2.1.db =
      (createBody req newId now w' acq).2.1.db ∧
    (createBody req newId now w acq).2.1.locks =
      (createBody req newId now w' acq).2.1.locks ∧
    (createBody req newId now w acq).2.2 = (createBody req newId now w' acq).2.2 := by
  unfold createBody
  cases hc : Payment.create req.reference req.amount req.currency newId now <;>
    cases acq <;> simp [hdb, hlk]

lemma createExecute_fresh_ok (req : CreatePaymentRequest) (newId : String)
    (now : ℕ) (w : World)
    (hle : lookupExisting w req.idempotency_key = none)
    (href : pyStrip req.reference ≠ "") (hamt : 0 < req.amount)
    (hcur : req.currency.length = 3) :
    CreatePaymentUseCase.execute req newId now w =
      (Except.ok (PaymentResponse.from_entity (processedPaymentOf req newId now), true),
       { db := dbUpdate (dbSave w.db (pendingPaymentOf req newId now))
                 (processedPaymentOf req newId now),
         idem := (req.idempotency_key, newId) :: w.idem,
         locks := w.locks },
       if req.idempotency_key ∈ w.locks then
         [Ev.lockFailed req.idempotency_key, Ev.save newId, Ev.update newId,
          Ev.idemSave req.idempotency_key]
       else
         [Ev.lockAcquired req.idempotency_key, Ev.save newId, Ev.update newId,
          Ev.idemSave req.idempotency_key, Ev.lockReleased req.idempotency_key]) := by
  rw [createExecute_fresh req newId now w hle]
  by_cases hm : req.idempotency_key ∈ w.locks
  · rw [if_pos hm, if_pos hm, createBody_ok req newId now w false href hamt hcur]
    simp
  · rw [if_neg hm, if_neg hm, createBody_ok req newId now _ true href hamt hcur]
    simp [List.erase_cons_head]

/-- C1: two sequential CreatePayment executions with the same idempotency
key, starting from a state where the key is unmapped and the first
executed with a valid request and a fresh id, give: the first returns
`is_new = true` and performs exactly one repository save; the second
(with any fresh id and instant) returns the same `payment_id` with
`is_new = false` and performs no save.  Moreover, when the stored mapping
points to a payment that is no longer in the repository, the lookup falls
through as if the key were absent: the execution's result, resulting
payments table, resulting lock table, and trace all coincide with those
of the execution on the store with the key erased. -/
theorem create_payment_idempotent :
    (∀ (req : CreatePaymentRequest) (newId : String) (now : ℕ)
        (newId2 : String) (now2 : ℕ) (w : World),
      List.lookup req.idempotency_key w.idem = none →
      (∀ r ∈ w.db, r.payment_id ≠ newId) →
      pyStrip req.reference ≠ "" → 0 < req.amount → req.currency.length = 3 →
      ∃ resp1 : PaymentResponse,
        (CreatePaymentUseCase.execute req newId now w).1 = Except.ok (resp1, true) ∧
        resp1.payment_id = newId ∧
        ((CreatePaymentUseCase.execute req newId now w).2.2.filter Ev.isSave).length
          = 1 ∧
        ∃ resp2 : PaymentResponse,
          (CreatePaymentUseCase.execute req newId2 now2
              (CreatePaymentUseCase.execute req newId now w).2.1).1 =
            Except.ok (resp2, false) ∧
          resp2.payment_id = resp1.payment_id ∧
          ((CreatePaymentUseCase.execute req newId2 now2
              (CreatePaymentUseCase.execute req newId now w).2.1).2.2.filter
            Ev.isSave) = []) ∧
    (∀ (req : CreatePaymentRequest) (newId : String) (now : ℕ) (w : World)
        (pid : String),
      List.lookup req.idempotency_key w.idem = some pid →
      dbFindById w.db pid = none →
      (CreatePaymentUseCase.execute req newId now w).1 =
        (CreatePaymentUseCase.execute req newId now
          { w with idem := w.idem.filter (fun kv => kv.1 != req.idempotency_key) }).1 ∧
      (CreatePaymentUseCase.execute req newId now w).2.1.db =
        (CreatePaymentUseCase.execute req newId now
          { w with idem := w.idem.filter (fun kv => kv.1 != req.idempotency_key) }).2.1.db ∧
      (CreatePaymentUseCase.execute req newId now w).2.1.locks =
        (CreatePaymentUseCase.execute req newId now
          { w with idem := w.idem.filter (fun kv => kv.1 != req.idempotency_key) }).2.1.locks ∧
      (CreatePaymentUseCase.execute req newId now w).2.2 =
        (CreatePaymentUseCase.execute req newId now
          { w with idem := w.idem.filter (fun kv => kv.1 != req.idempotency_key) }).2.2) := by
  constructor
  · intro req newId now newId2 now2 w hlook hfresh href hamt hcur
    have hle := lookupExisting_of_lookup_none w req.idempotency_key hlook
    have hfind :
        dbFindById
          (dbUpdate (dbSave w.db (pendingPaymentOf req newId now))
            (processedPaymentOf req newId now))
          newId = some (processedPaymentOf req newId now) :=
      dbFindById_fresh_roundtrip w.db _ _ rfl rfl hfresh
    rw [createExecute_fresh_ok req newId now w hle href hamt hcur]
    refine ⟨PaymentResponse.from_entity (processedPaymentOf req newId now),
      rfl, rfl, ?_, ?_⟩
    · by_cases hm : req.idempotency_key ∈ w.locks <;>
        simp [hm, List.filter, Ev.isSave]
    · have hle2 : lookupExisting
          { db := dbUpdate (dbSave w.db (pendingPaymentOf req newId now))
              (processedPaymentOf req newId now),
            idem := (req.idempotency_key, newId) :: w.idem,
            locks := w.locks } req.idempotency_key =
          some (processedPaymentOf req newId now) := by
        simp only [lookupExisting, lookup_cons_self]
        exact hfind
      rw [createExecute_replay req newId2 now2 _ _ hle2]
      exact ⟨PaymentResponse.from_entity (processedPaymentOf req newId now),
        rfl, rfl, rfl⟩
  · intro req newId now w pid hlook hdead
    have hleA : lookupExisting w req.idempotency_key = none := by
      simp [lookupExisting, hlook, hdead]
    have hleB : lookupExisting
        { w with idem := w.idem.filter (fun kv => kv.1 != req.idempotency_key) }
        req.idempotency_key = none := by
      simp [lookupExisting, lookup_eraseKey_none]
    rw [createExecute_fresh req newId now w hleA,
      createExecute_fresh req newId now _ hleB]
    by_cases hm : req.idempotency_key ∈ w.locks
    · have hm2 : req.idempotency_key ∈
          ({ w with idem := w.idem.filter (fun kv => kv.1 != req.idempotency_key) } :
            World).locks := hm
      rw [if_pos hm, if_pos hm2]
      obtain ⟨h1, h2, h3, h4⟩ :=
        createBody_parts_idem_indep req newId now w
          { w with idem := w.idem.filter (fun kv => kv.1 != req.idempotency_key) }
          false rfl rfl
      exact ⟨h1, h2, h3, by rw [h4]⟩
    · have hm2 : req.idempotency_key ∉
          ({ w with idem := w.idem.filter (fun kv => kv.1 != req.idempotency_key) } :
            World).locks := hm
      rw [if_neg hm, if_neg hm2]
      obtain ⟨h1, h2, h3, h4⟩ :=
        createBody_parts_idem_indep req newId now
          { w with locks := req.idempotency_key :: w.locks }
          { w with idem := w.idem.filter (fun kv => kv.1 != req.idempotency_key),
                   locks := req.idempotency_key :: w.locks }
          true rfl rfl
      exact ⟨h1, h2, h3, by rw [h4]⟩

/-- Witness for C1: a fresh key on an empty world, followed by a replay;
and a dangling mapping behaving as if the key were absent. -/
theorem create_payment_idempotent_witness :
    (∃ resp1 : PaymentResponse,
      (CreatePaymentUseCase.execute ⟨"r1", 500, "usd", "k1"⟩ "id1" 3 ⟨[], [], []⟩).1 =
        Except.ok (resp1, true) ∧
      resp1.payment_id = "id1" ∧
      ((CreatePaymentUseCase.execute ⟨"r1", 500, "usd", "k1"⟩ "id1" 3
          ⟨[], [], []⟩).2.2.filter Ev.isSave).length = 1 ∧
      ∃ resp2 : PaymentResponse,
        (CreatePaymentUseCase.execute ⟨"r1", 500, "usd", "k1"⟩ "id9" 9
            (CreatePaymentUseCase.execute ⟨"r1", 500, "usd", "k1"⟩ "id1" 3
              ⟨[], [], []⟩).2.1).1 =
          Except.ok (resp2, false) ∧
        resp2.payment_id = resp1.payment_id ∧
        ((CreatePaymentUseCase.execute ⟨"r1", 500, "usd", "k1"⟩ "id9" 9
            (CreatePaymentUseCase.execute ⟨"r1", 500, "usd", "k1"⟩ "id1" 3
              ⟨[], [], []⟩).2.1).2.2.filter Ev.isSave) = []) ∧
    ((CreatePaymentUseCase.execute ⟨"r1", 500, "usd", "k1"⟩ "id1" 3
        ⟨[], [("k1", "deadpid")], []⟩).1 =
      (CreatePaymentUseCase.execute ⟨"r1", 500, "usd", "k1"⟩ "id1" 3
        ⟨[], [("k1", "deadpid")].filter (fun kv => kv.1 != "k1"), []⟩).1) :=
  ⟨create_payment_idempotent.1 ⟨"r1", 500, "usd", "k1"⟩ "id1" 3 "id9" 9 ⟨[], [], []⟩
    (by decide) (by decide) (by decide) (by decide) (by decide),
   (create_payment_idempotent.2 ⟨"r1", 500, "usd", "k1"⟩ "id1" 3
     ⟨[], [("k1", "deadpid")], []⟩ "deadpid" (by decide) (by decide)).1⟩

/-- C10: a payment saved through the repository and reloaded by
`find_by_id` is reproduced exactly — in particular with identical amount
(exact decimal equality via the lossless decimal-as-string column),
status and retries.  The hypothesis models the primary-key constraint on
`payment_id`. -/
theorem save_find_roundtrip (db : List PaymentRow) (p : Payment)
    (hfresh : ∀ r ∈ db, r.payment_id ≠ p.payment_id) :
    dbFindById (dbSave db p) p.payment_id = some p := by
  unfold dbFindById dbSave
  induction db with
  | nil => simp [List.find?, entityToRow, rowToEntity, PaymentStatus.ofString_value]
  | cons r rest ih =>
    have hr : r.payment_id ≠ p.payment_id := hfresh r (by simp)
    have ih2 := ih fun x hx => hfresh x (by simp [hx])
    simp only [List.cons_append]
    rw [List.find?_cons]
    simp only [hr, decide_eq_true_eq, if_neg hr]
    simpa using ih2

/-- Witness for C10: a non-trivial payment with fractional amount
round-trips through an occupied table. -/
theorem save_find_roundtrip_witness :
    dbFindById
        (dbSave [⟨"other", "x", 7, "EUR", "SUCCESS", 1, 0, 0⟩]
          ⟨"p1", "ref", 1500, "MXN", .FAILED, 2, 4, 5⟩)
        "p1" =
      some ⟨"p1", "ref", 1500, "MXN", .FAILED, 2, 4, 5⟩ :=
  save_find_roundtrip [⟨"other", "x", 7, "EUR", "SUCCESS", 1, 0, 0⟩]
    ⟨"p1", "ref", 1500, "MXN", .FAILED, 2, 4, 5⟩ (by decide)

lemma rowToEntity_fields (r : PaymentRow) (ent : Payment)
    (h : rowToEntity r = some ent) :
    ent.created_at = r.created_at ∧ ent.status.value = r.status := by
  unfold rowToEntity at h
  cases hos : PaymentStatus.ofString r.status with
  | none =>
    rw [hos] at h
    exact absurd h (by simp)
  | some st =>
    rw [hos] at h
    simp only [Option.map_some'] at h
    have hst : st.value = r.status := by
      revert hos
      unfold PaymentStatus.ofString
      split_ifs with h1 h2 h3 h4 <;> intro hos
      · cases hos; simp [PaymentStatus.value, h1]
      · cases hos; simp [PaymentStatus.value, h2]
      · cases hos; simp [PaymentStatus.value, h3]
      · cases hos; simp [PaymentStatus.value, h4]
      · cases hos
    cases h
    exact ⟨rfl, hst⟩

/-- Counterexample for C9: the empty string is not one of the four valid
status strings, yet ListPayments does not raise ValidationError on it —
Python truthiness (`if request.status:`) treats `""` as an absent
filter, so the call returns normally. -/
theorem list_payments_empty_filter_cex :
    ListPaymentsUseCase.execute ⟨some "", 100, 0⟩ [] =
      Except.ok ⟨[], 0, 100, 0⟩ := rfl

/-- C9 as amended: a truthy (non-empty) status filter outside the four
valid status strings raises ValidationError, while an empty-string
filter is treated as absent by Python truthiness; for an absent, empty
or valid filter the call succeeds and returns only payments matching the
filter, ordered by creation time descending, at most `limit` of them,
with a total equal to the number of matching rows independent of limit
and offset. -/
theorem list_payments_filter_paged (sOpt : Option String) (limit offset : ℕ)
    (db : List PaymentRow) :
    (∀ s : String, sOpt = some s → s ≠ "" → s ∉ validStatuses →
      ∃ m, ListPaymentsUseCase.execute ⟨sOpt, limit, offset⟩ db =
        Except.error (.validationError m "status")) ∧
    ((statusTruthy sOpt = false ∨ ∃ s, sOpt = some s ∧ s ∈ validStatuses) →
      ∃ r : ListPaymentsResponse,
        ListPaymentsUseCase.execute ⟨sOpt, limit, offset⟩ db = Except.ok r ∧
        r.total = (db.filter (rowMatches sOpt)).length ∧
        r.payments.length ≤ limit ∧
        (∀ resp ∈ r.payments, statusTruthy sOpt = true →
          resp.status = sOpt.getD "") ∧
        r.payments.Pairwise (fun a b => b.created_at ≤ a.created_at)) := by
  constructor
  · rintro s rfl hne hnotin
    have ht : statusTruthy (some s) = true := by
      simp [statusTruthy, hne]
    have hc : validStatuses.contains s = false := by
      simpa using hnotin
    refine ⟨"Invalid status " ++ s ++
      ". Valid values: PENDING, SUCCESS, FAILED, EXHAUSTED", ?_⟩
    unfold ListPaymentsUseCase.execute
    rw [if_pos]
    · rfl
    · exact ⟨ht, by simpa using hnotin⟩
  · intro hok
    have hcond : ¬ (statusTruthy sOpt ∧
        ¬ (validStatuses.contains (sOpt.getD ""))) := by
      rcases hok with h | ⟨s, rfl, hs⟩
      · rintro ⟨h1, -⟩
        rw [h] at h1
        exact Bool.false_ne_true h1
      · rintro ⟨-, h2⟩
        exact h2 (by simpa using hs)
    unfold ListPaymentsUseCase.execute
    rw [if_neg hcond]
    refine ⟨_, rfl, rfl, ?_, ?_, ?_⟩
    · rw [List.length_map]
      refine le_trans (List.length_filterMap_le _ _) ?_
      unfold dbFindAll
      exact List.length_take_le _ _
    · intro resp hresp htruthy
      simp only [List.mem_map] at hresp
      obtain ⟨ent, hent, hre⟩ := hresp
      simp only [List.mem_filterMap] at hent
      obtain ⟨row, hrow, hrowent⟩ := hent
      have hmatch : rowMatches sOpt row = true := by
        have : row ∈ (sortByCreatedDesc db).filter (rowMatches sOpt) := by
          have h1 : row ∈ ((sortByCreatedDesc db).filter (rowMatches sOpt)).drop offset :=
            List.mem_of_mem_take (by simpa [dbFindAll] using hrow)
          exact List.mem_of_mem_drop h1
        exact (List.mem_filter.mp this).2
      have hsv := (rowToEntity_fields row ent hrowent).2
      rw [← hre]
      show ent.status.value = sOpt.getD ""
      rw [hsv]
      unfold rowMatches at hmatch
      rw [if_pos htruthy] at hmatch
      simpa using hmatch
    · have hrel : IsTrans PaymentRow (fun a b => b.created_at ≤ a.created_at) :=
        ⟨fun _ _ _ hab hbc => le_trans hbc hab⟩
      have hrel2 : IsTotal PaymentRow (fun a b => b.created_at ≤ a.created_at) :=
        ⟨fun a b => (le_total b.created_at a.created_at)⟩
      have hsorted : (sortByCreatedDesc db).Pairwise
          (fun a b => b.created_at ≤ a.created_at) := by
        unfold sortByCreatedDesc
        exact List.sorted_insertionSort _ _
      have hfiltered := hsorted.filter (rowMatches sOpt)
      have hsub : List.Sublist (dbFindAll db sOpt limit offset)
          ((sortByCreatedDesc db).filter (rowMatches sOpt)) := by
        unfold dbFindAll
        exact (List.take_sublist _ _).trans (List.drop_sublist _ _)
      have hrows := List.Pairwise.sublist hsub hfiltered
      have hents : ((dbFindAll db sOpt limit offset).filterMap rowToEntity).Pairwise
          (fun a b => b.created_at ≤ a.created_at) := by
        rw [List.pairwise_filterMap]
        refine hrows.imp ?_
        intro a b hab x hx y hy
        rw [(rowToEntity_fields a x hx).1, (rowToEntity_fields b y hy).1]
        exact hab
      rw [List.pairwise_map]
      refine hents.imp ?_
      intro a b hab
      exact hab

/-- Witness for C9: an invalid non-empty filter is rejected; the spec
scenario `status="FAILED"` succeeds with the stated page and total
properties. -/
theorem list_payments_filter_paged_witness :
    (∃ m, ListPaymentsUseCase.execute ⟨some "BOGUS", 10, 0⟩
        [⟨"p1", "r", 5, "USD", "FAILED", 0, 1, 1⟩] =
      Except.error (.validationError m "status")) ∧
    (∃ r : ListPaymentsResponse,
      ListPaymentsUseCase.execute ⟨some "FAILED", 10, 0⟩
          [⟨"p1", "r", 5, "USD", "FAILED", 0, 1, 1⟩] = Except.ok r ∧
      r.total = ([⟨"p1", "r", 5, "USD", "FAILED", 0, 1, 1⟩].filter
        (rowMatches (some "FAILED"))).length ∧
      r.payments.length ≤ 10 ∧
      (∀ resp ∈ r.payments, statusTruthy (some "FAILED") = true →
        resp.status = (some "FAILED").getD "") ∧
      r.payments.Pairwise (fun a b => b.created_at ≤ a.created_at)) :=
  ⟨(list_payments_filter_paged (some "BOGUS") 10 0
      [⟨"p1", "r", 5, "USD", "FAILED", 0, 1, 1⟩]).1 "BOGUS" rfl
      (by decide) (by decide),
   (list_payments_filter_paged (some "FAILED") 10 0
      [⟨"p1", "r", 5, "USD", "FAILED", 0, 1, 1⟩]).2
      (Or.inr ⟨"FAILED", rfl, by decide⟩)⟩

/-! ### Binary64 model lemmas -/

lemma log2fuel_correct : ∀ (fuel n : ℕ), 1 ≤ n → n ≤ fuel →
    2 ^ log2fuel fuel n ≤ n ∧ n < 2 ^ (log2fuel fuel n + 1) := by
  intro fuel
  induction fuel with
  | zero => intro n h1 h2; omega
  | succ fuel ih =>
    intro n h1 h2
    unfold log2fuel
    by_cases hle : n ≤ 1
    · have : n = 1 := by omega
      subst this
      simp
    · rw [if_neg hle]
      have h2' : n / 2 ≤ fuel := by omega
      have h1' : 1 ≤ n / 2 := by omega
      obtain ⟨ha, hb⟩ := ih (n / 2) h1' h2'
      constructor
      · have : 2 ^ (log2fuel fuel (n / 2) + 1) = 2 * 2 ^ log2fuel fuel (n / 2) := by
          ring
        rw [this]
        omega
      · have : 2 ^ (log2fuel fuel (n / 2) + 1 + 1) =
            2 * 2 ^ (log2fuel fuel (n / 2) + 1) := by ring
        rw [this]
        omega

lemma natLog2_le (n : ℕ) (h1 : 1 ≤ n) : 2 ^ natLog2 n ≤ n :=
  (log2fuel_correct n n h1 le_rfl).1

lemma natLog2_lt (n : ℕ) (h1 : 1 ≤ n) : n < 2 ^ (natLog2 n + 1) :=
  (log2fuel_correct n n h1 le_rfl).2

lemma pow2q_ofNat (k : ℕ) : pow2q (k : ℤ) = ((2 ^ k : ℕ) : ℚ) := by
  unfold pow2q
  rw [if_pos (Int.ofNat_nonneg k)]
  simp

lemma natLog2_one : natLog2 1 = 0 := rfl

lemma ratExp2_natCast (n : ℕ) (h1 : 1 ≤ n) : ratExp2 (n : ℚ) = natLog2 n := by
  unfold ratExp2
  have hnum : (n : ℚ).num = (n : ℤ) := Rat.num_natCast n
  have hden : (n : ℚ).den = 1 := Rat.den_natCast n
  rw [hnum, hden]
  have hnatabs : (n : ℤ).natAbs = n := Int.natAbs_ofNat n
  rw [hnatabs]
  simp only [natLog2_one, Nat.cast_zero, sub_zero]
  rw [pow2q_ofNat (natLog2 n)]
  rw [if_neg]
  push_cast
  exact not_lt.mpr (by exact_mod_cast natLog2_le n h1)

lemma ratFloorNonneg_natCast (n : ℕ) : ratFloorNonneg (n : ℚ) = (n : ℤ) := by
  unfold ratFloorNonneg
  rw [Rat.num_natCast, Rat.den_natCast]
  simp

lemma roundHalfEven_natCast (n : ℕ) : roundHalfEven (n : ℚ) = (n : ℤ) := by
  unfold roundHalfEven
  rw [ratFloorNonneg_natCast]
  have : (n : ℚ) - ((n : ℤ) : ℚ) = 0 := by push_cast; ring
  rw [this]
  norm_num

lemma pyFloat_natCast (n : ℕ) (hlt : n < 2 ^ 53) : pyFloat (n : ℚ) = (n : ℚ) := by
  by_cases h0 : n = 0
  · subst h0
    simp [pyFloat]
  have h1 : 1 ≤ n := by omega
  have hne : (n : ℚ) ≠ 0 := by exact_mod_cast h0
  have hpos : ¬ ((n : ℚ) < 0) := not_lt.mpr (Nat.cast_nonneg n)
  unfold pyFloat
  rw [if_neg hne, if_neg hpos]
  unfold pyFloatPos
  rw [ratExp2_natCast n h1]
  have hL : natLog2 n ≤ 52 := by
    have := natLog2_le n h1
    by_contra hgt
    push_neg at hgt
    have : 2 ^ 53 ≤ 2 ^ natLog2 n := Nat.pow_le_pow_right (by norm_num) hgt
    omega
  have hscale : (52 : ℤ) - (natLog2 n : ℤ) = ((52 - natLog2 n : ℕ) : ℤ) := by
    omega
  rw [hscale, pow2q_ofNat]
  have hmul : (n : ℚ) * ((2 ^ (52 - natLog2 n) : ℕ) : ℚ) =
      ((n * 2 ^ (52 - natLog2 n) : ℕ) : ℚ) := by
    push_cast
    ring
  rw [hmul, roundHalfEven_natCast]
  have hne2 : ((2 ^ (52 - natLog2 n) : ℕ) : ℚ) ≠ 0 :=
    Nat.cast_ne_zero.mpr (by positivity)
  field_simp

lemma pyFloatPos_dyadic (q : ℚ) :
    ∃ (m : ℤ) (k : ℕ), pyFloatPos q = (m : ℚ) / 2 ^ k := by
  unfold pyFloatPos
  by_cases h : 0 ≤ 52 - ratExp2 q
  · refine ⟨roundHalfEven (q * pow2q (52 - ratExp2 q)), (52 - ratExp2 q).toNat, ?_⟩
    unfold pow2q
    rw [if_pos h]
    push_cast
    rfl
  · refine ⟨roundHalfEven (q * pow2q (52 - ratExp2 q)) *
      2 ^ (-(52 - ratExp2 q)).toNat, 0, ?_⟩
    unfold pow2q
    rw [if_neg h]
    have hne : ((2 ^ (-(52 - ratExp2 q)).toNat : ℕ) : ℚ) ≠ 0 :=
      Nat.cast_ne_zero.mpr (by positivity)
    field_simp

lemma pyFloat_dyadic (q : ℚ) :
    ∃ (m : ℤ) (k : ℕ), pyFloat q = (m : ℚ) / 2 ^ k := by
  unfold pyFloat
  split_ifs with h0 hneg
  · exact ⟨0, 0, by norm_num⟩
  · obtain ⟨m, k, h⟩ := pyFloatPos_dyadic (-q)
    exact ⟨-m, k, by rw [h]; push_cast; ring⟩
  · exact pyFloatPos_dyadic q

lemma dyadic_ne_tenth (m : ℤ) (k : ℕ) : (m : ℚ) / 2 ^ k ≠ 1 / 10 := by
  intro h
  have hne : ((2 : ℚ) ^ k) ≠ 0 := by positivity
  rw [div_eq_div_iff hne (by norm_num)] at h
  rw [one_mul] at h
  have h3 : m * 10 = 2 ^ k := by exact_mod_cast h
  have h5 : (5 : ℤ) ∣ 2 ^ k := ⟨2 * m, by linarith⟩
  have hp : Prime (5 : ℤ) := Int.prime_iff_natAbs_prime.mpr (by norm_num)
  have hd : (5 : ℤ) ∣ 2 := hp.dvd_of_dvd_pow h5
  norm_num at hd

/-- Counterexample for C8: the response DTO converts the amount with
Python `float(...)` (`PaymentResponse.from_entity`, `dtos.py`), so
creating a payment with amount 0.1 returns a response whose amount is a
dyadic rational and therefore not exactly 1/10. -/
theorem dto_amount_binary_float_cex :
    (CreatePaymentUseCase.execute ⟨"r1", 1 / 10, "usd", "k1"⟩ "id1" 3
        ⟨[], [], []⟩).1.map (fun x => x.1.amount) ≠
      Except.ok ((1 : ℚ) / 10) := by
  rw [createExecute_fresh_ok ⟨"r1", 1 / 10, "usd", "k1"⟩ "id1" 3 ⟨[], [], []⟩
    rfl (by decide) (by norm_num) (by decide)]
  simp only [Except.map, ne_eq, Except.ok.injEq]
  show ¬ pyFloat ((1 : ℚ) / 10) = 1 / 10
  obtain ⟨m, k, he⟩ := pyFloat_dyadic ((1 : ℚ) / 10)
  rw [he]
  exact dyadic_ne_tenth m k

/-- C8 as amended: every response DTO reports `float(amount)` — the
binary64 rounding of the entity's exact decimal amount — which equals
the entity amount exactly when that amount is representable in binary64
(here proved for every integer amount below 2^53); persistence, by
contrast, keeps the amount exact (see the round-trip theorem), and the
equality fails for non-representable amounts such as 0.1. -/
theorem dto_amount_exact_when_representable (p : Payment) (n : ℕ)
    (hamt : p.amount = (n : ℚ)) (hlt : n < 2 ^ 53) :
    (PaymentResponse.from_entity p).amount = pyFloat p.amount ∧
    (PaymentResponse.from_entity p).amount = p.amount := by
  refine ⟨rfl, ?_⟩
  show pyFloat p.amount = p.amount
  rw [hamt]
  exact pyFloat_natCast n hlt

/-- Witness for C8: an amount of 500 is reported exactly. -/
theorem dto_amount_exact_when_representable_witness :
    (PaymentResponse.from_entity ⟨"p1", "r", 500, "USD", .SUCCESS, 0, 1, 1⟩).amount =
      pyFloat (Payment.amount ⟨"p1", "r", 500, "USD", .SUCCESS, 0, 1, 1⟩) ∧
    (PaymentResponse.from_entity ⟨"p1", "r", 500, "USD", .SUCCESS, 0, 1, 1⟩).amount =
      (Payment.amount ⟨"p1", "r", 500, "USD", .SUCCESS, 0, 1, 1⟩) :=
  dto_amount_exact_when_representable ⟨"p1", "r", 500, "USD", .SUCCESS, 0, 1, 1⟩
    500 (by decide) (by decide)
